import Mathlib

/-!
Verification of the MM_PyARPES ".xy" loader against its specification.

The development shallowly embeds the two source files the claims touch:

* `src/momentum_functions/loading.py` — `filter_meta_data`, the front part of
  `load_xy` (sentinel search, group/trial subdivision, the per-trial record
  loop) and `load_to_xarray` (trial selection, settings merge, stacking,
  axis inference, labelled-array assembly);
* `src/arpes/endstations/plugin/MM.py` — `MMEndstation.postprocess_final`.

Python strings are Lean `String`s (operated on through `List Char`), Python
floats are `ℚ` (the attribute strings the code passes to `float` are plain
decimal notation), Python dicts are association lists with the update
semantics of `dict.update` (an existing key keeps its position and takes the
new value, a new key is appended).  Fallible code returns `Except PyError`;
an uncaught Python exception is `.error e`, and caught exceptions are
modelled exactly where the source catches them.
-/

/-- The Python exception classes the embedded code can raise. -/
inductive PyError where
  | keyError
  | valueError
  | indexError
  | typeError
  | nameError
  | unboundLocal
  deriving DecidableEq, Repr

/-- Python's `\s` over the ASCII range (the characters the instrument files
contain): space, tab, newline, carriage return, vertical tab, form feed. -/
def isPySpace (c : Char) : Bool :=
  c = ' ' || c = '\t' || c = '\n' || c = '\x0b' || c = '\x0c' || c = '\r'

/-- Python `str.strip()`: drop leading and trailing whitespace. -/
def pyStripList (l : List Char) : List Char :=
  ((l.dropWhile isPySpace).reverse.dropWhile isPySpace).reverse

def pyStrip (s : String) : String := ⟨pyStripList s.toList⟩

/-- Python slicing `s[a:]` (character based, clamped). -/
def pyDrop (n : Nat) (s : String) : String := ⟨s.toList.drop n⟩

/-- Python slicing `s[a:b]` (character based, clamped). -/
def pySlice (a b : Nat) (s : String) : String := ⟨(s.toList.take b).drop a⟩

/-- Boolean infix test on character lists. -/
def infixB (sub : List Char) : List Char → Bool
  | [] => sub.isEmpty
  | c :: rest => sub.isPrefixOf (c :: rest) || infixB sub rest

/-- Python's substring test `sub in s`. -/
def pyIn (sub s : String) : Bool := infixB sub.toList s.toList

/-- `str.split(sep)` for a non-empty separator: split at every
non-overlapping occurrence, keeping empty pieces (Python semantics).
Structured with fuel so that the kernel can evaluate it; the fuel passed by
`pySplitSep` always suffices. -/
def pySplitSepAux (s0 : Char) (srest : List Char) : Nat → List Char → List Char → List (List Char)
  | _, acc, [] => [acc.reverse]
  | 0, acc, l => [acc.reverse ++ l]
  | fuel + 1, acc, c :: rest =>
    if (s0 :: srest).isPrefixOf (c :: rest) then
      acc.reverse :: pySplitSepAux s0 srest fuel [] (rest.drop srest.length)
    else
      pySplitSepAux s0 srest fuel (c :: acc) rest

def pySplitSep (sep s : String) : List String :=
  match sep.toList with
  | [] => [s]
  | s0 :: srest => (pySplitSepAux s0 srest (s.toList.length + 1) [] s.toList).map (⟨·⟩)

/-- `re.sub(old, new, s)` for a literal, non-empty pattern: replace every
non-overlapping occurrence, scanning left to right. -/
def pyReplaceAux (p0 : Char) (prest new : List Char) : Nat → List Char → List Char
  | _, [] => []
  | 0, l => l
  | fuel + 1, c :: rest =>
    if (p0 :: prest).isPrefixOf (c :: rest) then
      new ++ pyReplaceAux p0 prest new fuel (rest.drop prest.length)
    else
      c :: pyReplaceAux p0 prest new fuel rest

def pyReplace (old new s : String) : String :=
  match old.toList with
  | [] => s
  | p0 :: prest => ⟨pyReplaceAux p0 prest new.toList (s.toList.length + 1) s.toList⟩

/-- `re.split(r'(\s\s)+', line)` from `filter_meta_data` (loading.py line 36).
The regex greedily consumes pairs of whitespace characters; because the
pattern has a capturing group, the text of its last repetition (always a pair
of whitespace characters) is kept between the surrounding pieces, and an odd
leftover whitespace character starts the next piece.  `none` mode is reading
a piece (`acc` holds it reversed), `some (p1, p2)` mode is consuming a
separator whose last pair so far is `(p1, p2)`. -/
def reSplitRun : Option (Char × Char) → List Char → List Char → List (List Char)
  | none, acc, [] => [acc.reverse]
  | none, acc, [c] => [(c :: acc).reverse]
  | none, acc, c1 :: c2 :: rest =>
    if isPySpace c1 && isPySpace c2 then
      acc.reverse :: reSplitRun (some (c1, c2)) [] rest
    else
      reSplitRun none (c1 :: acc) (c2 :: rest)
  | some (p1, p2), _, [] => [[p1, p2], []]
  | some (p1, p2), _, [c] => [[p1, p2], [c]]
  | some (p1, p2), _, c1 :: c2 :: rest =>
    if isPySpace c1 && isPySpace c2 then
      reSplitRun (some (c1, c2)) [] rest
    else
      [p1, p2] :: reSplitRun none [c1] (c2 :: rest)

def reSplitDoubleWs (l : List Char) : List (List Char) := reSplitRun none [] l

/-- `re.fullmatch(r'\s*', string)` succeeds: the piece is whitespace only
(the empty piece included) — loading.py line 39. -/
def wsOnly (l : List Char) : Bool := l.all isPySpace

/-- `re.sub('^#', '', string)`: drop one leading `#` — loading.py line 40. -/
def stripHash : List Char → List Char
  | '#' :: rest => rest
  | l => l

/-- `re.sub(r'\s+', '', string)`: erase every whitespace character —
loading.py line 45. -/
def removeWs (l : List Char) : List Char := l.filter (fun c => !isPySpace c)

/-- Python `dict` update `d[k] = v`: an existing key keeps its position and
takes the new value, a new key is appended. -/
def updateAssoc {α : Type} (d : List (String × α)) (k : String) (v : α) : List (String × α) :=
  if d.any (fun p => p.1 = k) then
    d.map (fun p => if p.1 = k then (k, v) else p)
  else
    d ++ [(k, v)]

/-- First-match association-list lookup (Python `d[k]` when it succeeds). -/
def lookupS {α : Type} (d : List (String × α)) (k : String) : Option α :=
  match d with
  | [] => none
  | p :: rest => if p.1 = k then some p.2 else lookupS rest k

/-- The (key, value) pair one line contributes in `filter_meta_data`
(loading.py lines 36–50): split on runs of whitespace pairs, drop
whitespace-only pieces, strip a leading `#` from every piece, pop the first
piece when more than two remain, erase internal whitespace, and take the
first two pieces — `none` when fewer than two survive (the `IndexError`
swallowed at line 49). -/
def metaPair (line : List Char) : Option (String × String) :=
  let toks := (reSplitDoubleWs line).filter (fun t => !wsOnly t)
  let toks := toks.map stripHash
  let toks := if toks.length > 2 then toks.drop 1 else toks
  let toks := toks.map removeWs
  match toks with
  | k :: v :: _ => some (⟨k⟩, ⟨v⟩)
  | _ => none

/-- `filter_meta_data` (loading.py lines 33–51): fold the per-line pairs into
a dict. -/
def filter_meta_data (ls : List String) : List (String × String) :=
  ls.foldl (fun d line =>
    match metaPair line.toList with
    | some (k, v) => updateAssoc d k v
    | none => d) []

/-! ### Numeric conversions (`int(...)`, `float(...)`) -/

def isDigitC (c : Char) : Bool := '0' ≤ c && c ≤ '9'

def natOfDigits (l : List Char) : Nat :=
  l.foldl (fun n c => n * 10 + (c.toNat - '0'.toNat)) 0

def allDigits (l : List Char) : Bool := l.all isDigitC

/-- Python `int(s)` on a decimal string: strip whitespace, optional sign,
a non-empty run of digits; anything else raises `ValueError`. -/
def pyInt (s : String) : Except PyError Int :=
  match pyStripList s.toList with
  | '-' :: rest =>
    if rest ≠ [] && allDigits rest then .ok (-(natOfDigits rest : Int)) else .error .valueError
  | '+' :: rest =>
    if rest ≠ [] && allDigits rest then .ok (natOfDigits rest : Int) else .error .valueError
  | cs =>
    if cs ≠ [] && allDigits cs then .ok (natOfDigits cs : Int) else .error .valueError

/-- Split at the first character satisfying `p`: the part before it and,
when it occurs, the part after it. -/
def splitFirst (p : Char → Bool) : List Char → List Char × Option (List Char)
  | [] => ([], none)
  | c :: rest =>
    if p c then ([], some rest)
    else
      let r := splitFirst p rest
      (c :: r.1, r.2)

/-- The unsigned mantissa of a Python float literal: digits, optionally with
one point, at least one digit overall. -/
def parseMantissa (cs : List Char) : Option ℚ :=
  match splitFirst (· = '.') cs with
  | (ip, none) =>
    if ip ≠ [] && allDigits ip then some (natOfDigits ip : ℚ) else none
  | (ip, some fp) =>
    if (ip ≠ [] || fp ≠ []) && allDigits ip && allDigits fp then
      some ((natOfDigits (ip ++ fp) : ℚ) / 10 ^ fp.length)
    else none

/-- An optionally signed decimal integer (the exponent of a float literal). -/
def parseSignedInt (cs : List Char) : Option Int :=
  match cs with
  | '-' :: rest => if rest ≠ [] && allDigits rest then some (-(natOfDigits rest : Int)) else none
  | '+' :: rest => if rest ≠ [] && allDigits rest then some (natOfDigits rest : Int) else none
  | _ => if cs ≠ [] && allDigits cs then some (natOfDigits cs : Int) else none

/-- Python `float(s)` on the decimal notation the instrument files carry:
strip whitespace, optional sign, digits with an optional point, optional
`e`/`E` exponent.  (The special forms `inf`/`nan` and digit underscores do
not occur in these files and are not modelled; floats are read exactly, as
rationals.)  `none` stands for the `ValueError` Python raises. -/
def parseDecimal (s : String) : Option ℚ :=
  let cs := pyStripList s.toList
  let signed : List Char → Option ℚ := fun l =>
    match l with
    | '-' :: rest => (parseMantissa rest).map (fun q => -q)
    | '+' :: rest => parseMantissa rest
    | _ => parseMantissa l
  match splitFirst (fun c => c = 'e' || c = 'E') cs with
  | (m, none) => signed m
  | (m, some e) => do
    let q ← signed m
    let k ← parseSignedInt e
    some (q * (10 : ℚ) ^ k)

/-! ### The front of `load_xy` (loading.py lines 75–83)

`load_xy` strips every line, finds the exact sentinel line that ends the
global settings block with `list.index` — which raises an uncaught
`ValueError` when the sentinel is absent — parses the settings with
`filter_meta_data`, and keeps everything two lines past the sentinel as the
group region. -/

def timeZoneSentinel : String := "#   Time Zone Format:         UTC"

/-- The first index at which `x` occurs, if any. -/
def firstIndexOf (x : String) : List String → Option Nat
  | [] => none
  | y :: ys => if y = x then some 0 else (firstIndexOf x ys).map (· + 1)

/-- Python `lines.index(x)`: the first index at which `x` occurs, or
`ValueError`. -/
def listIndex (xs : List String) (x : String) : Except PyError Nat :=
  match firstIndexOf x xs with
  | some i => .ok i
  | none => .error .valueError

/-- Loading.py lines 75–83: the stripped line list, the global settings and
the post-settings region.  The `np.loadtxt` call at line 84 binds a variable
that is never used and is not modelled. -/
def loadXySettings (lines : List String) : Except PyError (List (String × String) × List String) := do
  let lines := lines.map pyStrip
  let settings_index ← listIndex lines timeZoneSentinel
  let settings := filter_meta_data (lines.take (settings_index + 1))
  let meta_data := lines.drop (settings_index + 2)
  .ok (settings, meta_data)

/-! ### Trial subdivision within one group (loading.py lines 111–127)

A group's lines (after the trailing-whitespace `pop(-1)` at line 107) are
subdivided by `OrdinateRange:` markers (each index shifted by `+3`, the
start-of-data boundary) and `Region:` markers (start of a trial's local
settings).  With exactly one `OrdinateRange:` marker the whole group is
`Trial 1`; otherwise trial `i+1` takes its settings from
`group[R[i]:OR[i]]` (an uncaught `IndexError` when there are fewer
`Region:` markers than `OrdinateRange:` markers) and its data lines from
`group[OR[i]:R[i+1]-1]`, the caught `IndexError` at the last trial taking
the rest of the group. -/

def markerIndexes (marker : String) (group : List String) : List Nat :=
  (List.range group.length).filter (fun i => pyIn marker ((group.drop i).headD ""))

def group_OR_indexes (group : List String) : List Nat :=
  (markerIndexes "OrdinateRange:" group).map (· + 3)

def group_R_indexes (group : List String) : List Nat :=
  markerIndexes "Region:" group

/-- One step of the multi-trial branch (loading.py lines 122–127). -/
def multiTrialStep (group : List String) (ors rs : List Nat) (i : Nat) :
    Except PyError ((String × List (String × String)) × List String) :=
  match rs.drop i with
  | [] => .error .indexError
  | ri :: _ =>
    match ors.drop i with
    | [] => .error .indexError
    | oi :: _ =>
      let settings := filter_meta_data ((group.take oi).drop ri)
      let data :=
        match rs.drop (i + 1) with
        | [] => group.drop oi
        | rnext :: _ => (group.take (rnext - 1)).drop oi
      .ok ((s!"Trial {i + 1}", settings), data)

/-- Loading.py lines 111–127: the run settings and data line slices of each
trial in one group. -/
def trialSubdivide (group : List String) :
    Except PyError (List (String × List (String × String)) × List (List String)) :=
  let ors := group_OR_indexes group
  let rs := group_R_indexes group
  if ors.length = 1 then
    .ok ([("Trial 1", filter_meta_data (group.take (ors.headD 0)))],
         [group.drop (ors.headD 0)])
  else
    (List.range ors.length).foldlM (fun acc i => do
      let ((name, settings), data) ← multiTrialStep group ors rs i
      .ok (acc.1 ++ [(name, settings)], acc.2 ++ [data])) ([], [])

/-! ### The per-trial record loop (loading.py lines 132–184)

Each trial's lines are scanned once.  A `Parameter:` line refreshes the
pending parameter string; a `Curve:` line finalizes the record accumulated
so far under the previous key and opens a new one; a `#` line extends the
pending per-record metadata; any other line is parsed as two
double-space-separated floats.  The whole body is wrapped in
`try: ... except IndexError`, so a line whose defect surfaces as an
`IndexError` (an empty line at `line[0]`, a data line whose split has no
second piece) is skipped with whatever partial mutations already happened,
while a `float(...)` failure raises an uncaught `ValueError`. -/

structure TrialLoopState where
  parameter : String
  cycle_names : List String
  cycle_curve_params : List String
  cycle_curve_data : List (ℚ × ℚ)
  cycle_curve_dict : List (String × (List (String × String) × List (ℚ × ℚ)))
  coordinates : String
  deriving DecidableEq, Repr

/-- Loading.py lines 133–144: the loop's initial state.  `separate_channels`
is `'yes' in settings["SeparateChannelData:"]` (line 141; an uncaught
`KeyError` when that global setting is absent is raised before this state
exists).  The local `multiple_channels = True` at line 138 is never read
again and carries no state. -/
def initTrialState (separate_channels : Bool) : TrialLoopState :=
  { parameter := ""
    cycle_names := if separate_channels then ["Cycle: 0, Curve: 0, Channel: 0"] else ["Cycle: 0, Curve: 0"]
    cycle_curve_params := []
    cycle_curve_data := []
    cycle_curve_dict := []
    coordinates := "" }

/-- The `Curve:` branch (loading.py lines 150–168): append the new key,
close the accumulated record under the oldest pending key, refresh the
shared column-label string from the third- or second-to-last metadata line,
pop the oldest key and reset the accumulators.  Every operation in this
branch is total. -/
def curveStep (st : TrialLoopState) (line : String) : TrialLoopState :=
  let names := st.cycle_names ++ [pyDrop 2 line]
  let params := st.cycle_curve_params ++ [st.parameter]
  let dict := updateAssoc st.cycle_curve_dict (names.headD "")
    (filter_meta_data params, st.cycle_curve_data)
  let coordinates :=
    if params.length > 4 then
      pyStrip ((pySplitSep "   " (params.getD (params.length - 3) "")).getLastD "")
    else if params.length > 3 then
      pyStrip ((pySplitSep "   " (params.getD (params.length - 2) "")).getLastD "")
    else
      st.coordinates
  { st with
      cycle_names := names.drop 1
      cycle_curve_params := []
      cycle_curve_data := []
      cycle_curve_dict := dict
      coordinates := coordinates }

/-- One iteration of the loop at loading.py lines 146–175. -/
def processTrialLine (st : TrialLoopState) (line : String) : Except PyError TrialLoopState :=
  let st := if pyIn "Parameter:" line then { st with parameter := pyReplace ": " ":   " line } else st
  let st := if pyIn "Curve:" line then curveStep st line else st
  match line.toList with
  | [] => .ok st
  | c :: _ =>
    if c = '#' then
      .ok { st with cycle_curve_params := st.cycle_curve_params ++ [pyDrop 2 line] }
    else
      match pySplitSep "  " line with
      | [] => .ok st
      | n0 :: rest =>
        match parseDecimal n0 with
        | none => .error .valueError
        | some x =>
          match rest with
          | [] => .ok st
          | n1 :: _ =>
            match parseDecimal n1 with
            | none => .error .valueError
            | some y => .ok { st with cycle_curve_data := st.cycle_curve_data ++ [(x, y)] }

/-- The whole loop at loading.py lines 146–175. -/
def processTrialLines (st : TrialLoopState) : List String → Except PyError TrialLoopState
  | [] => .ok st
  | l :: ls =>
    match processTrialLine st l with
    | .ok st2 => processTrialLines st2 ls
    | .error e => .error e

/-- Loading.py lines 177–184: close the last pending record and stamp the
shared `ColumnLabels:` value onto every record's metadata. -/
def finalizeTrial (st : TrialLoopState) :
    Except PyError (List (String × (List (String × String) × List (ℚ × ℚ)))) :=
  let params := if st.parameter ≠ "" then st.cycle_curve_params ++ [st.parameter] else st.cycle_curve_params
  match st.cycle_names.getLast? with
  | none => .error .indexError
  | some last =>
    let dict := updateAssoc st.cycle_curve_dict last (filter_meta_data params, st.cycle_curve_data)
    .ok (dict.map (fun p => (p.1, (updateAssoc p.2.1 "ColumnLabels:" st.coordinates, p.2.2))))

/-! ### The parsed mapping consumed by `load_to_xarray`

`load_xy` returns `{'settings': dict, 'groups': {group: {trial: trial_dict}}}`
where a trial dict mixes scalar settings (string values) with records
(`[metadata dict, (samples, 2) array]` values).  `load_to_xarray` takes this
mapping as given, so the embedding quantifies over it directly. -/

/-- One value of a trial dict: a scalar setting string, or a record holding
its local metadata dict and its `(samples, 2)` numeric array. -/
inductive TrialEntry where
  | setting (v : String)
  | record (meta : List (String × String)) (data : List (ℚ × ℚ))
  deriving DecidableEq, Repr

abbrev TrialDict : Type := List (String × TrialEntry)

/-- The output shape of `load_xy` (loading.py lines 191–194). -/
structure Parsed where
  settings : List (String × String)
  groups : List (String × List (String × TrialDict))
  deriving DecidableEq, Repr

/-- `RENAME_COORDS` (loading.py lines 12–31), in source order. -/
def RENAME_COORDS : List (String × String) :=
  [("X", "x"), ("Y", "y"), ("Z", "z"),
   ("k_x", "k"), ("k_y", "ky"), ("kx", "kx"), ("ky", "ky"),
   ("x", "x"), ("y", "y"), ("z", "z"),
   ("Kinetic Energy", "eV"), ("energy", "eV")]

/-- A coordinate value attached to an axis name: the Python scalar `0` used
for the sentinel axes, or a float vector. -/
inductive CoordVal where
  | scalar0
  | vec (qs : List ℚ)
  deriving DecidableEq, Repr

/-- The labelled array handed to `xr.DataArray` (dims, coords, the stacked
payload — always a 3-level nesting, see `extractCuts` — and attrs). -/
structure XrDataArray where
  dims : List String
  coords : List (String × CoordVal)
  data : List (List (List ℚ))
  attrs : List (String × String)
  deriving DecidableEq, Repr

/-- The `xr.Dataset({'spectrum': spectrum}, attrs=settings)` wrapper
(loading.py lines 382–384). -/
structure XrDataset where
  spectrum : XrDataArray
  attrs : List (String × String)
  deriving DecidableEq, Repr

/-- What a call of `load_to_xarray` does: return a dataset, return the
integer sentinel `1` after printing the message that lists the names shown
(loading.py lines 207–213), or let a Python exception propagate. -/
inductive LoadResult where
  | dataset (d : XrDataset)
  | sentinel (code : Nat) (printed_names : List String)
  | raise (e : PyError)
  deriving DecidableEq, Repr

/-! ### `load_to_xarray` (loading.py lines 196–384) -/

/-- Loading.py lines 246–251: scan the trial keys; `'Cycle: 1'` in a key
means more than one cut (and breaks), `'Curve: 1, Channel: 0'` means more
than one curve.  Returns `(one_cut, one_curve)`. -/
def scanFlags : List String → Bool → Bool × Bool
  | [], one_curve => (true, one_curve)
  | k :: rest, one_curve =>
    if pyIn "Cycle: 1" k then (false, one_curve)
    else if pyIn "Curve: 1, Channel: 0" k then scanFlags rest false
    else scanFlags rest one_curve

/-- The stacking loop's mutable state (loading.py lines 238–245). -/
structure StackState where
  cuts : List (List (List (ℚ × ℚ)))
  array : List (List (ℚ × ℚ))
  cycle : Int
  curve : Int
  deriving DecidableEq, Repr

/-- One iteration of the stacking loop (loading.py lines 253–278): scalar
settings and empty records are skipped; with one cut the records are
appended flat (or grouped by the curve index at `key[17:20]`), with more
than one cut they are grouped by the cycle index at `key[7:9]`. -/
def stackStep (one_cut one_curve : Bool) (st : StackState) (kv : String × TrialEntry) :
    Except PyError StackState :=
  match kv.2 with
  | .setting _ => .ok st
  | .record _ d =>
    if d = [] then .ok st
    else if one_cut then
      if one_curve then .ok { st with array := st.array ++ [d] }
      else
        match pyInt (pyReplace "," "" (pySlice 17 20 kv.1)) with
        | .error e => .error e
        | .ok c =>
          if c = st.curve then .ok { st with array := st.array ++ [d] }
          else if c = st.curve + 1 then
            .ok { st with curve := st.curve + 1, cuts := st.cuts ++ [st.array], array := [d] }
          else .ok st
    else
      match pyInt (pyReplace "," "" (pySlice 7 9 kv.1)) with
      | .error e => .error e
      | .ok c =>
        if c = st.cycle then .ok { st with array := st.array ++ [d] }
        else if c = st.cycle + 1 then
          .ok { st with cycle := st.cycle + 1, cuts := st.cuts ++ [st.array], array := [d] }
        else .ok st

def stackFold (one_cut one_curve : Bool) (trial : TrialDict) : Except PyError StackState :=
  trial.foldlM (stackStep one_cut one_curve) ⟨[], [], 0, 0⟩

def allEqNat (l : List Nat) : Bool :=
  match l with
  | [] => true
  | x :: xs => xs.all (· = x)

/-- Loading.py lines 280–282: `np.array(cuts)` demands a rectangular nesting
(`ValueError` otherwise, the fatal shape mismatch), `[0, 0, :, 0]` demands a
first record (`IndexError` otherwise) and yields the scan-variable
coordinates, `[:, :, :, 1]` keeps the intensity column. -/
def extractCuts (cuts : List (List (List (ℚ × ℚ)))) :
    Except PyError (List ℚ × List (List (List ℚ))) :=
  if allEqNat (cuts.map List.length) &&
     allEqNat ((cuts.map (fun inner => inner.map List.length)).flatten) then
    match cuts with
    | [] => .error .indexError
    | inner0 :: _ =>
      match inner0 with
      | [] => .error .indexError
      | rec0 :: _ =>
        .ok (rec0.map Prod.fst, cuts.map (fun inner => inner.map (fun r => r.map Prod.snd)))
  else .error .valueError

/-- Loading.py lines 285–289: the scan-variable name comes from the last
trial entry's metadata `ColumnLabels:` value (first space-separated token,
stripped), remapped through `RENAME_COORDS` when possible (kept verbatim,
with a printed note, otherwise).  Indexing `[0]` into a scalar setting's
string value gives a character, whose `['ColumnLabels:']` subscript is a
`TypeError` (an `IndexError` first when the value is empty); an empty trial
dict fails the `[-1]` indexing. -/
def scanVarName (trial : TrialDict) : Except PyError String :=
  match trial.getLast? with
  | none => .error .indexError
  | some (_, .setting v) => if v.toList = [] then .error .indexError else .error .typeError
  | some (_, .record meta _) =>
    match lookupS meta "ColumnLabels:" with
    | none => .error .keyError
    | some cl =>
      let raw := pyStrip ((pySplitSep " " cl).headD "")
      match lookupS RENAME_COORDS raw with
      | some r => .ok r
      | none => .ok raw

/-- Keep the first occurrence of each value (`OrderedDict.fromkeys`). -/
def dedupKeepFirst (l : List ℚ) : List ℚ :=
  l.foldl (fun acc q => if acc.contains q then acc else acc ++ [q]) []

/-- The coordinate-collection loop inside the `try` at loading.py
lines 310–314.  `.ok none` is the caught `KeyError` (a record without
`NonEnergyOrdinate:`); `.error` carries the uncaught exceptions (an
`IndexError` from subscripting an empty setting string, a `ValueError` from
`float`). -/
def neoLoop : List TrialEntry → List ℚ → Except PyError (Option (List ℚ))
  | [], acc => .ok (some acc)
  | .setting v :: rest, acc =>
    if v.toList = [] then .error .indexError else neoLoop rest acc
  | .record meta _ :: rest, acc =>
    match lookupS meta "NonEnergyOrdinate:" with
    | none => .ok none
    | some s =>
      match parseDecimal s with
      | none => .error .valueError
      | some q => neoLoop rest (acc ++ [q])

/-- Loading.py lines 298–318: the secondary-ordinate (non-energy-ordinate)
axis.  `settings['AnalyzerLens:']` is subscripted outside any `try`, so an
absent key raises an uncaught `KeyError`; when no `if`/`elif` branch
recognizes the value, `real_non_energy_ordinate` is never assigned and the
`RENAME_COORDS[...]` lookup raises an uncaught `NameError`
(`UnboundLocalError`).  Only a `KeyError` inside the `try` — in practice a
record without `NonEnergyOrdinate:` — produces the `"No_NEO"` sentinel with
the scalar coordinate `0`. -/
def interpretNEO (settings : List (String × String)) (trial : TrialDict) :
    Except PyError (String × CoordVal) :=
  match lookupS settings "AnalyzerLens:" with
  | none => .error .keyError
  | some lens =>
    let rneo : Option String :=
      if pyIn "MM_Momentum" lens then some "ky"
      else if pyIn "MM_PEEM" lens then some "y"
      else if pyIn "ARPES" lens then some "ky"
      else none
    match rneo with
    | none => .error .nameError
    | some r =>
      match lookupS RENAME_COORDS r with
      | none => .ok ("No_NEO", .scalar0)
      | some neo =>
        match neoLoop (trial.map Prod.snd) [] with
        | .error e => .error e
        | .ok none => .ok ("No_NEO", .scalar0)
        | .ok (some coords) => .ok (neo, .vec (dedupKeepFirst coords))

/-- Loading.py lines 320–333: the channel axis.  With
`'yes' in settings['SeparateChannelData:']` (an uncaught `KeyError` when the
key is absent) the name follows the same lens table and the coordinates
reuse the secondary-ordinate coordinates; otherwise the `"No_Channel"`
sentinel with scalar coordinate `0`. -/
def interpretChannel (settings : List (String × String)) (neoCoords : CoordVal) :
    Except PyError (String × CoordVal) :=
  match lookupS settings "SeparateChannelData:" with
  | none => .error .keyError
  | some scd =>
    if pyIn "yes" scd then
      match lookupS settings "AnalyzerLens:" with
      | none => .error .keyError
      | some lens =>
        let rchan : Option String :=
          if pyIn "MM_Momentum" lens then some "kx"
          else if pyIn "MM_PEEM" lens then some "x"
          else if pyIn "ARPES" lens then some "kx"
          else none
        match rchan with
        | none => .error .nameError
        | some r =>
          match lookupS RENAME_COORDS r with
          | none => .error .keyError
          | some ch => .ok (ch, neoCoords)
    else .ok ("No_Channel", .scalar0)

/-- The coordinate-collection loop inside the `try` at loading.py
lines 341–343.  A record whose metadata has more than two entries must carry
`Parameter:` — a missing one is the caught `KeyError` (`.ok none`); a
`Parameter:` value without `=` raises an uncaught `IndexError`, a
non-numeric right side an uncaught `ValueError`.  Values are deduplicated as
they are collected (`not in`). -/
def lvLoop : List TrialEntry → List ℚ → Except PyError (Option (List ℚ))
  | [], acc => .ok (some acc)
  | .setting v :: rest, acc =>
    if v.toList = [] then .error .indexError else lvLoop rest acc
  | .record meta _ :: rest, acc =>
    if meta.length > 2 then
      match lookupS meta "Parameter:" with
      | none => .ok none
      | some p =>
        match (pySplitSep "=" p).drop 1 with
        | [] => .error .indexError
        | s1 :: _ =>
          match parseDecimal s1 with
          | none => .error .valueError
          | some q => lvLoop rest (if acc.contains q then acc else acc ++ [q])
    else lvLoop rest acc

/-- Loading.py lines 337–346: the logical (parametric) variable, named from
the last record's `Parameter:` entry (text left of `=`, quotes removed); a
missing `Parameter:` key is the caught `KeyError` giving the `"No_LV"`
sentinel with scalar coordinate `0`. -/
def interpretLV (trial : TrialDict) : Except PyError (String × CoordVal) :=
  match trial.getLast? with
  | none => .error .indexError
  | some (_, .setting v) => if v.toList = [] then .error .indexError else .error .typeError
  | some (_, .record meta _) =>
    match lookupS meta "Parameter:" with
    | none => .ok ("No_LV", .scalar0)
    | some p =>
      let lv := pyReplace "\x22" "" ((pySplitSep "=" p).headD "")
      match lvLoop (trial.map Prod.snd) [] with
      | .error e => .error e
      | .ok none => .ok ("No_LV", .scalar0)
      | .ok (some coords) => .ok (lv, .vec coords)

/-- `re.sub(r'\s+', '_', s)`: collapse each whitespace run to one
underscore (fuel keeps the recursion structural; the fuel passed below
always suffices). -/
def wsRunsToUnderscoreAux : Nat → List Char → List Char
  | _, [] => []
  | 0, l => l
  | fuel + 1, c :: rest =>
    if isPySpace c then
      '_' :: wsRunsToUnderscoreAux fuel (rest.dropWhile isPySpace)
    else
      c :: wsRunsToUnderscoreAux fuel rest

def wsRunsToUnderscore (l : List Char) : List Char :=
  wsRunsToUnderscoreAux (l.length + 1) l

/-- Loading.py lines 349–350: strip, whitespace runs to `_`, brackets
to `_` (applied to the sentinel `"No_LV"` too, which it leaves alone). -/
def normalizeLV (s : String) : String :=
  ⟨(wsRunsToUnderscore (pyStripList s.toList)).map
    (fun c => if c = '[' || c = ']' then '_' else c)⟩

/-- The `spectrum_coords` dict literal (loading.py lines 362–373); a later
duplicate key overwrites the earlier value in place. -/
def buildCoords (scan_var : String) (scan_coords : List ℚ)
    (neo : String) (neoC : CoordVal) (channel : String) (chC : CoordVal)
    (logical_var : String) (lvC : CoordVal) : List (String × CoordVal) :=
  let d := updateAssoc ([] : List (String × CoordVal)) scan_var (.vec scan_coords)
  let d := updateAssoc d neo neoC
  let d := updateAssoc d channel chC
  let d := updateAssoc d logical_var lvC
  let d := updateAssoc d "chi" .scalar0
  let d := updateAssoc d "theta" .scalar0
  let d := updateAssoc d "psi" .scalar0
  let d := updateAssoc d "alpha" .scalar0
  d

/-- Everything after the settings merge (loading.py lines 238–384) for the
selected trial.  `xr.DataArray(data=cuts, dims=array_dims, ...)` requires as
many dim names as the payload has dimensions — the payload built by
`extractCuts` always has three — and raises `ValueError` otherwise. -/
def reconstructTrial (merged : List (String × String)) (trial : TrialDict) : LoadResult :=
  let flags := scanFlags (trial.map Prod.fst) true
  let one_cut := flags.1
  let one_curve := flags.2
  match stackFold one_cut one_curve trial with
  | .error e => .raise e
  | .ok st =>
    match extractCuts (st.cuts ++ [st.array]) with
    | .error e => .raise e
    | .ok (scan_var_coords, data3d) =>
      match scanVarName trial with
      | .error e => .raise e
      | .ok scan_var =>
        match interpretNEO merged trial with
        | .error e => .raise e
        | .ok (neo, neoC) =>
          match interpretChannel merged neoC with
          | .error e => .raise e
          | .ok (channel, chC) =>
            match interpretLV trial with
            | .error e => .raise e
            | .ok (lv0, lvC) =>
              let logical_var := normalizeLV lv0
              match lookupS merged "SeparateChannelData:" with
              | none => .raise .keyError
              | some scd =>
                let array_dims :=
                  (if one_cut = false then [logical_var] else []) ++
                  (if pyIn "yes" scd then [channel] else []) ++
                  [neo, scan_var]
                let coords := buildCoords scan_var scan_var_coords neo neoC channel chC logical_var lvC
                if array_dims.length = 3 then
                  .dataset { spectrum := { dims := array_dims, coords := coords,
                                           data := data3d, attrs := merged },
                             attrs := merged }
                else .raise .valueError

/-- Loading.py lines 229–235: `settings = data['settings']` aliases the
input's dict, and the loop writes each trial-local scalar setting into it
in place. -/
def mergeTrialSettings (settings : List (String × String)) (trial : TrialDict) :
    List (String × String) :=
  trial.foldl (fun s kv =>
    match kv.2 with
    | .setting v => updateAssoc s kv.1 v
    | .record _ _ => s) settings

/-- `load_to_xarray` (loading.py lines 196–384).  The second component is
the state of `data['settings']` when the call ends (the merge at lines
229–235 mutates it in place; error paths that never reach the merge leave it
untouched).

Control flow of lines 203–227 as written: a provided `group_name` that
exists binds `group` but nothing ever assigns `trial`, so the merge loop
raises `UnboundLocalError`; a provided `trial_name` without `group_name`
reads the unassigned `group` and raises `UnboundLocalError`; a missing
`group_name` key prints the group names and returns the integer `1`.  Only
the both-omitted path reaches a reconstruction, using the first group's
`'Trial 1'`. -/
def load_to_xarray (data : Parsed) (group_name trial_name : Option String) :
    LoadResult × List (String × String) :=
  match group_name with
  | some g =>
    match lookupS data.groups g with
    | none => (.sentinel 1 (data.groups.map Prod.fst), data.settings)
    | some _ => (.raise .unboundLocal, data.settings)
  | none =>
    match trial_name with
    | some _ => (.raise .unboundLocal, data.settings)
    | none =>
      match data.groups with
      | [] => (.raise .indexError, data.settings)
      | (_, grp) :: _ =>
        match lookupS grp "Trial 1" with
        | none => (.raise .keyError, data.settings)
        | some trial =>
          let merged := mergeTrialSettings data.settings trial
          (reconstructTrial merged trial, merged)

/-! ### `MMEndstation.postprocess_final` (MM.py lines 45–57)

The post-load conversion sees an `xr.Dataset` with coordinates and string
attributes.  When an `eV` coordinate exists the code reads
`attrs['Eff.Workfunction:']` unconditionally (an uncaught `KeyError` when
absent), then `attrs['ScanVariable:']`; only when the latter contains
`KineticEnergy` does it read `attrs['ExcitationEnergy:']` and shift the `eV`
coordinate pointwise by `float(workfunction) - float(photon_energy)`. -/

structure PPDataset where
  coords : List (String × List ℚ)
  attrs : List (String × String)
  deriving DecidableEq, Repr

/-- Shift the named coordinate vector pointwise by `delta`
(`data.coords['eV'] = data.eV + np.full_like(data.eV, delta)`). -/
def shiftCoord (d : PPDataset) (name : String) (delta : ℚ) : PPDataset :=
  { d with coords := d.coords.map (fun p => if p.1 = name then (p.1, p.2.map (· + delta)) else p) }

def postprocess_final (d : PPDataset) : Except PyError PPDataset :=
  if (d.coords.map Prod.fst).contains "eV" then
    match lookupS d.attrs "Eff.Workfunction:" with
    | none => .error .keyError
    | some workfunction =>
      match lookupS d.attrs "ScanVariable:" with
      | none => .error .keyError
      | some scan_variable =>
        if pyIn "KineticEnergy" scan_variable then
          match lookupS d.attrs "ExcitationEnergy:" with
          | none => .error .keyError
          | some photon_energy =>
            match parseDecimal workfunction, parseDecimal photon_energy with
            | some w, some p => .ok (shiftCoord d "eV" (w - p))
            | _, _ => .error .valueError
        else .ok d
  else .ok d

/-! ## Concrete fixtures shared by the claim theorems -/

/-- A well-formed single-trial dict: one scalar setting and one record
(`Cycle: 0, Curve: 0`, no channel separation) with two numeric rows. -/
def oneRecordTrial : TrialDict :=
  [("Region:", .setting "EDC1"),
   ("Cycle: 0, Curve: 0", .record
      [("NonEnergyOrdinate:", "1.0"), ("ColumnLabels:", "Kinetic Energy Counts")]
      [(10, 5), (11, 6)])]

/-- A parsed mapping with one group `G1` holding `Trial 1 := oneRecordTrial`
and a recognized lens mode. -/
def oneRecordParsed : Parsed :=
  { settings := [("AnalyzerLens:", "MM_PEEM:1.4kV"), ("SeparateChannelData:", "no")]
    groups := [("G1", [("Trial 1", oneRecordTrial)])] }

/-- The same parsed mapping with no `AnalyzerLens:` setting anywhere. -/
def noLensParsed : Parsed :=
  { settings := [("SeparateChannelData:", "no")]
    groups := [("G1", [("Trial 1", oneRecordTrial)])] }

/-! ## C10 — missing sentinel line -/

theorem firstIndexOf_eq_none {x : String} :
    ∀ {xs : List String}, (∀ y ∈ xs, y ≠ x) → firstIndexOf x xs = none := by
  intro xs
  induction xs with
  | nil => intro _; rfl
  | cons y ys ih =>
    intro h
    have hy : y ≠ x := h y (List.mem_cons_self y ys)
    simp only [firstIndexOf, if_neg hy, ih (fun z hz => h z (List.mem_cons_of_mem y hz)),
      Option.map_none']

/-- C10: for every decoded line list in which no line equals, after
stripping, the sentinel `#   Time Zone Format:         UTC`, the sentinel
search of `load_xy` (loading.py line 76, `lines.index(...)`) raises an
uncaught `ValueError`: the parse returns no mapping and no reported error
value. -/
theorem C10_missing_sentinel_raises_valueerror (lines : List String)
    (h : ∀ l ∈ lines, pyStrip l ≠ timeZoneSentinel) :
    loadXySettings lines = .error .valueError := by
  have hidx : firstIndexOf timeZoneSentinel (lines.map pyStrip) = none := by
    apply firstIndexOf_eq_none
    intro y hy
    obtain ⟨l, hl, rfl⟩ := List.mem_map.mp hy
    exact h l hl
  simp only [loadXySettings, listIndex, hidx]
  rfl

/-- Witness for C10 at a concrete two-line file body. -/
theorem C10_missing_sentinel_witness :
    loadXySettings ["# Group:    G1", "1.0  2.0"] = .error .valueError :=
  C10_missing_sentinel_raises_valueerror ["# Group:    G1", "1.0  2.0"] (by decide)

/-! ## C2 — unknown group name -/

/-- C2 counterexample: at a concrete parsed mapping with the single group
`G1`, requesting group `G2` does not raise any exception (`LookupError`
included): `load_to_xarray` catches the `KeyError` internally, prints the
message listing the group names present, and returns the integer sentinel
`1` to the caller (loading.py lines 204–213). -/
theorem C2_lookup_error_counterexample :
    load_to_xarray oneRecordParsed (some "G2") none
      = (.sentinel 1 ["G1"], oneRecordParsed.settings) := by rfl

/-- C2 as amended: for every parsed mapping and group name that is not one
of its groups, `load_to_xarray` prints the list of group names actually
present and returns the integer `1`; no exception reaches the caller and the
input settings are untouched. -/
theorem C2_unknown_group_prints_and_returns_one (data : Parsed) (g : String)
    (tn : Option String) (h : lookupS data.groups g = none) :
    load_to_xarray data (some g) tn
      = (.sentinel 1 (data.groups.map Prod.fst), data.settings) := by
  simp only [load_to_xarray, h]

/-- Witness for the amended C2 at a concrete input. -/
theorem C2_unknown_group_witness :
    load_to_xarray oneRecordParsed (some "Missing") (some "Trial 2")
      = (.sentinel 1 ["G1"], oneRecordParsed.settings) :=
  C2_unknown_group_prints_and_returns_one oneRecordParsed "Missing" (some "Trial 2") (by decide)

/-! ## C3 — group name provided, trial name omitted -/

/-- C3: for every parsed mapping and every group name present in it, calling
`load_to_xarray` with that group name and no trial name does not reconstruct
anything: the `if/elif/else` at loading.py lines 204–227 binds `group` in
its first branch but no branch then assigns `trial`, so the merge loop at
line 231 raises `UnboundLocalError`.  (Only the both-names-omitted path
reaches `'Trial 1'` of the first group.) -/
theorem C3_group_name_selected_raises_unbound_local (data : Parsed) (g : String)
    (grp : List (String × TrialDict)) (h : lookupS data.groups g = some grp) :
    load_to_xarray data (some g) none = (.raise .unboundLocal, data.settings) := by
  simp only [load_to_xarray, h]

/-- Witness for C3 at a concrete input whose group `G1` exists. -/
theorem C3_group_name_witness :
    load_to_xarray oneRecordParsed (some "G1") none
      = (.raise .unboundLocal, oneRecordParsed.settings) :=
  C3_group_name_selected_raises_unbound_local oneRecordParsed "G1"
    [("Trial 1", oneRecordTrial)] (by decide)

/-! ## C4 — the settings merge mutates the input -/

/-- C4 counterexample: at a concrete parsed mapping the `settings` entry
does not compare equal before and after the call — `settings =
data['settings']` at loading.py line 230 aliases the input dict and line 235
updates it in place, here adding the trial-local `Region:` entry. -/
theorem C4_mutation_counterexample :
    (load_to_xarray oneRecordParsed none none).2 ≠ oneRecordParsed.settings := by decide

/-- C4 as amended: on the default reconstruction path `load_to_xarray`
writes the trial-local scalar settings into the input's `settings` dict in
place (the state of `data['settings']` once the call ends is exactly the
merge of the trial's scalar entries over it), rather than building a new
mapping. -/
theorem C4_settings_merged_in_place (data : Parsed) (g : String)
    (grp : List (String × TrialDict)) (trial : TrialDict)
    (h1 : data.groups.head? = some (g, grp))
    (h2 : lookupS grp "Trial 1" = some trial) :
    (load_to_xarray data none none).2 = mergeTrialSettings data.settings trial := by
  obtain ⟨p, rest, hg⟩ : ∃ p rest, data.groups = p :: rest := by
    cases hgg : data.groups with
    | nil => rw [hgg] at h1; cases h1
    | cons a b => exact ⟨a, b, rfl⟩
  rw [hg] at h1
  simp only [List.head?_cons, Option.some.injEq] at h1
  subst h1
  simp only [load_to_xarray, hg, h2]

/-- Witness for the amended C4 at a concrete input. -/
theorem C4_settings_merge_witness :
    (load_to_xarray oneRecordParsed none none).2
      = mergeTrialSettings oneRecordParsed.settings oneRecordTrial :=
  C4_settings_merged_in_place oneRecordParsed "G1" [("Trial 1", oneRecordTrial)]
    oneRecordTrial (by decide) (by decide)

/-! ## C5 — absent or unrecognized lens mode -/

/-- C5 counterexample: at a concrete parsed mapping whose merged settings
carry no `AnalyzerLens:` entry, `load_to_xarray` does not name the
secondary-ordinate axis `No_NEO` — it raises an uncaught `KeyError` at
`settings['AnalyzerLens:']` (loading.py line 299, outside any `try`). -/
theorem C5_missing_lens_counterexample :
    (load_to_xarray noLensParsed none none).1 = .raise .keyError := by rfl

/-- C5 as amended: with no `AnalyzerLens:` entry in the merged settings the
secondary-ordinate block raises an uncaught `KeyError`; with an
`AnalyzerLens:` value that matches none of `MM_Momentum`, `MM_PEEM`, `ARPES`
it raises an uncaught `NameError` (`real_non_energy_ordinate` is never
assigned); the `No_NEO` sentinel with the single coordinate `0` arises only
from a `KeyError` inside the `try` — when the lens is recognized but the
coordinate collection fails, e.g. a record without `NonEnergyOrdinate:`. -/
theorem C5_lens_error_behavior (settings : List (String × String)) (trial : TrialDict)
    (lens : String) :
    (lookupS settings "AnalyzerLens:" = none →
      interpretNEO settings trial = .error .keyError)
    ∧ (lookupS settings "AnalyzerLens:" = some lens →
        pyIn "MM_Momentum" lens = false → pyIn "MM_PEEM" lens = false →
        pyIn "ARPES" lens = false →
        interpretNEO settings trial = .error .nameError)
    ∧ (lookupS settings "AnalyzerLens:" = some lens →
        pyIn "MM_Momentum" lens = false → pyIn "MM_PEEM" lens = true →
        neoLoop (trial.map Prod.snd) [] = .ok none →
        interpretNEO settings trial = .ok ("No_NEO", CoordVal.scalar0)) := by
  refine ⟨?_, ?_, ?_⟩
  · intro h
    simp only [interpretNEO, h]
  · intro h hm hp ha
    simp only [interpretNEO, h, hm, hp, ha, Bool.false_eq_true, if_false]
  · intro h hm hp hloop
    simp only [interpretNEO, h, hm, hp, hloop, Bool.false_eq_true, if_false, if_true]
    rfl

/-- Witness for the amended C5: all three branches at concrete inputs. -/
theorem C5_lens_error_witness :
    interpretNEO [("SeparateChannelData:", "no")] oneRecordTrial = .error .keyError
    ∧ interpretNEO [("AnalyzerLens:", "WideAngleMode")] oneRecordTrial = .error .nameError
    ∧ interpretNEO [("AnalyzerLens:", "MM_PEEM:1.4kV")]
        [("Cycle: 0, Curve: 0", .record [("ColumnLabels:", "x y")] [(1, 2)])]
        = .ok ("No_NEO", CoordVal.scalar0) :=
  ⟨(C5_lens_error_behavior _ oneRecordTrial "").1 (by decide),
   (C5_lens_error_behavior _ oneRecordTrial "WideAngleMode").2.1 (by decide)
     (by decide) (by decide) (by decide),
   (C5_lens_error_behavior _ _ "MM_PEEM:1.4kV").2.2 (by decide)
     (by decide) (by decide) (by rfl)⟩

/-! ## C1 — the single-cycle, single-curve reconstruction -/

/-- C1: at a well-formed single-group, single-trial parsed mapping with one
cycle and one curve (no channel separation), `load_to_xarray` does not
return a two-dimensional labelled array: the stacking loop keeps both the
cycle and the curve nesting levels, so the payload passed to `xr.DataArray`
has shape `(1, 1, samples)` — three dimensions, as the second conjunct shows
concretely — while `array_dims` names only the two axes
`[secondary-ordinate, scan-variable]`, and the construction raises
`ValueError` (different number of dimensions on data and dims). -/
theorem C1_single_record_dims_mismatch :
    (load_to_xarray oneRecordParsed none none).1 = .raise .valueError
    ∧ (stackFold true true oneRecordTrial).map (fun st => st.cuts ++ [st.array])
        = .ok [[[(10, 5), (11, 6)]]]
    ∧ extractCuts [[[(10, 5), (11, 6)]]] = .ok ([10, 11], [[[5, 6]]]) := by
  refine ⟨by rfl, by rfl, by rfl⟩

/-! ## C8 — the kinetic-to-binding conversion in the MM plugin -/

/-- A dataset with an `eV` coordinate whose attributes carry no
`Eff.Workfunction:` and a `ScanVariable:` that is not kinetic energy. -/
def ppNoWorkfunction : PPDataset :=
  { coords := [("eV", [10, 11])]
    attrs := [("ScanVariable:", "Angle")] }

/-- A dataset on the conversion path. -/
def ppKinetic : PPDataset :=
  { coords := [("eV", [10, 11])]
    attrs := [("ScanVariable:", "KineticEnergy"), ("Eff.Workfunction:", "4.3"),
              ("ExcitationEnergy:", "21.2")] }

/-- C8 counterexample: the claim says that outside the conversion case the
dataset is returned unchanged, but with an `eV` coordinate present
`postprocess_final` reads `attrs['Eff.Workfunction:']` before it looks at
`ScanVariable:` (MM.py line 52), so this dataset — whose scan variable is
not kinetic energy — raises an uncaught `KeyError` instead of passing
through. -/
theorem C8_missing_attr_counterexample :
    postprocess_final ppNoWorkfunction = .error .keyError := by rfl

/-- C8 as amended: `postprocess_final` shifts the `eV` coordinate pointwise
by `float(Eff.Workfunction:) - float(ExcitationEnergy:)` exactly when an
`eV` coordinate exists and `ScanVariable:` contains `KineticEnergy`; a
dataset without `eV` passes through unchanged, and one with `eV` passes
through unchanged only when `Eff.Workfunction:` and `ScanVariable:` are both
readable and the scan variable is not kinetic energy — when `eV` is present
the two keys are read unconditionally and a missing one raises `KeyError`.
The conversion depends on no attribute other than those three keys. -/
theorem C8_postprocess_behavior (d : PPDataset) :
    ((d.coords.map Prod.fst).contains "eV" = false → postprocess_final d = .ok d)
    ∧ (∀ wf sv, lookupS d.attrs "Eff.Workfunction:" = some wf →
        lookupS d.attrs "ScanVariable:" = some sv →
        pyIn "KineticEnergy" sv = false →
        postprocess_final d = .ok d)
    ∧ (∀ wf sv pe w p, lookupS d.attrs "Eff.Workfunction:" = some wf →
        lookupS d.attrs "ScanVariable:" = some sv →
        pyIn "KineticEnergy" sv = true →
        lookupS d.attrs "ExcitationEnergy:" = some pe →
        parseDecimal wf = some w → parseDecimal pe = some p →
        postprocess_final d = .ok (if (d.coords.map Prod.fst).contains "eV"
          then shiftCoord d "eV" (w - p) else d)) := by
  refine ⟨?_, ?_, ?_⟩
  · intro h
    simp only [postprocess_final, h, Bool.false_eq_true, if_false]
  · intro wf sv hwf hsv hkin
    by_cases hev : (d.coords.map Prod.fst).contains "eV" = true
    · simp only [postprocess_final, hev, if_true, hwf, hsv, hkin, Bool.false_eq_true, if_false]
    · simp only [Bool.not_eq_true] at hev
      simp only [postprocess_final, hev, Bool.false_eq_true, if_false]
  · intro wf sv pe w p hwf hsv hkin hpe hw hp
    by_cases hev : (d.coords.map Prod.fst).contains "eV" = true
    · simp only [postprocess_final, hev, if_true, hwf, hsv, hkin, hpe, hw, hp]
    · simp only [Bool.not_eq_true] at hev
      simp only [postprocess_final, hev, Bool.false_eq_true, if_false]

/-- A dataset without an `eV` coordinate. -/
def ppNoEV : PPDataset :=
  { coords := [("x", [1])]
    attrs := [] }

/-- A dataset with `eV` whose readable scan variable is not kinetic
energy. -/
def ppAngle : PPDataset :=
  { coords := [("eV", [10])]
    attrs := [("Eff.Workfunction:", "4.3"), ("ScanVariable:", "Angle")] }

/-- Witness for the amended C8: the pass-through cases and the conversion
case at concrete datasets (the shift is `4.3 - 21.2 = -16.9`). -/
theorem C8_postprocess_witness :
    postprocess_final ppNoEV = .ok ppNoEV
    ∧ postprocess_final ppAngle = .ok ppAngle
    ∧ postprocess_final ppKinetic
      = .ok (if (ppKinetic.coords.map Prod.fst).contains "eV"
          then shiftCoord ppKinetic "eV" ((43 : ℚ) / 10 - 212 / 10) else ppKinetic) :=
  ⟨(C8_postprocess_behavior _).1 (by decide),
   (C8_postprocess_behavior _).2.1 "4.3" "Angle" (by decide) (by decide) (by decide),
   (C8_postprocess_behavior ppKinetic).2.2 "4.3" "KineticEnergy" "21.2"
     ((43 : ℚ) / 10) ((212 : ℚ) / 10) (by decide) (by decide) (by decide) (by decide)
     (by rfl) (by rfl)⟩

/-! ## C9 — exactly one `OrdinateRange:` marker -/

/-- C9: for every group line slice in which exactly one line (at index `i`)
contains the `OrdinateRange:` marker, `load_xy` keys the entire group as
`Trial 1`: its data lines are everything from the boundary `i + 3` on, and
its trial-local settings are `filter_meta_data` of all the lines before that
boundary — no `Region:` marker takes part in the subdivision. -/
theorem C9_single_ordinaterange_trial1 (group : List String) (i : Nat)
    (h : markerIndexes "OrdinateRange:" group = [i]) :
    trialSubdivide group
      = .ok ([("Trial 1", filter_meta_data (group.take (i + 3)))],
             [group.drop (i + 3)]) := by
  simp only [trialSubdivide, group_OR_indexes, h, List.map_cons, List.map_nil,
    List.length_cons, List.length_nil, List.headD_cons]
  rfl

/-- A concrete group slice with one `OrdinateRange:` marker at index 2 (and
a `Region:` marker that the subdivision must ignore). -/
def singleORGroup : List String :=
  ["# Region: R1", "# foo  bar", "# OrdinateRange:  (0,2)", "# x", "# y", "1.0  2.0"]

/-- Witness for C9 at `singleORGroup`. -/
theorem C9_single_ordinaterange_witness :
    trialSubdivide singleORGroup
      = .ok ([("Trial 1", filter_meta_data (singleORGroup.take 5))],
             [singleORGroup.drop 5]) :=
  C9_single_ordinaterange_trial1 singleORGroup 2 (by decide)

/-! ## C6 — malformed lines in the record loop -/

/-- A data line whose double-space split has a single piece that parses as a
float is skipped by the record loop regardless of the surrounding state: the
`IndexError` at `numbers[1]` (loading.py line 173) is caught at line 174 and
nothing was mutated. -/
theorem processTrialLine_missing_token (st : TrialLoopState) (l t : String) (x : ℚ)
    (hp : pyIn "Parameter:" l = false) (hc : pyIn "Curve:" l = false)
    (hh : l.toList.head? ≠ some '#')
    (hsplit : pySplitSep "  " l = [t]) (hx : parseDecimal t = some x) :
    processTrialLine st l = .ok st := by
  unfold processTrialLine
  simp only [hp, hc, Bool.false_eq_true, if_false]
  cases hl : l.toList with
  | nil => rfl
  | cons c cs =>
    have hcne : (c = '#') = False := by
      rw [hl] at hh
      simp only [List.head?_cons, ne_eq, Option.some.injEq] at hh
      exact eq_false hh
    simp only [hcne, if_false, hsplit, hx]

/-- C6 counterexample: a malformed data line whose second token is not
numeric (`float` raising `ValueError` at loading.py line 173, outside the
`except IndexError`) aborts the whole trial parse — the following
well-formed line is never reached. -/
theorem C6_malformed_line_aborts_counterexample :
    processTrialLines (initTrialState false) ["1.0  2.0", "3.0  abc", "4.0  5.0"]
      = .error .valueError := by rfl

/-- C6 as amended: a malformed line whose defect surfaces as an `IndexError`
— here, a data line missing its second numeric token — is skipped and the
surrounding well-formed lines of the trial parse exactly as if the line were
absent; but a malformed token that fails the `float` conversion raises an
uncaught `ValueError` that aborts the parse (the counterexample). -/
theorem C6_missing_token_line_skipped (st : TrialLoopState) (xs ys : List String)
    (l t : String) (x : ℚ)
    (hp : pyIn "Parameter:" l = false) (hc : pyIn "Curve:" l = false)
    (hh : l.toList.head? ≠ some '#')
    (hsplit : pySplitSep "  " l = [t]) (hx : parseDecimal t = some x) :
    processTrialLines st (xs ++ l :: ys) = processTrialLines st (xs ++ ys) := by
  induction xs generalizing st with
  | nil =>
    simp only [List.nil_append, processTrialLines,
      processTrialLine_missing_token st l t x hp hc hh hsplit hx]
  | cons a as ih =>
    simp only [List.cons_append, processTrialLines]
    cases processTrialLine st a with
    | ok st2 => exact ih st2
    | error e => rfl

/-- Witness for the amended C6: the single-token line `1.0` between two
well-formed data lines changes nothing. -/
theorem C6_missing_token_line_witness :
    processTrialLines (initTrialState false) (["5.0  6.0"] ++ "1.0" :: ["7.0  8.0"])
      = processTrialLines (initTrialState false) (["5.0  6.0"] ++ ["7.0  8.0"]) :=
  C6_missing_token_line_skipped (initTrialState false) ["5.0  6.0"] ["7.0  8.0"]
    "1.0" "1.0" ((10 : ℚ) / 10 ^ 1) (by decide) (by decide) (by decide) (by rfl) (by rfl)

/-! ## C7 — the `filter_meta_data` round trip

The claim renders each pair as one line in the `#  key    value` convention
(`#`, two spaces, the key, four spaces, the value) and asks
`filter_meta_data` to recover the mapping exactly. -/

/-- One line of the `#  key    value` convention. -/
def renderLine (k v : String) : String :=
  ⟨'#' :: ' ' :: ' ' :: (k.toList ++ [' ', ' ', ' ', ' '] ++ v.toList)⟩

/-- The rendered line list of a mapping. -/
def renderMapping (m : List (String × String)) : List String :=
  m.map (fun p => renderLine p.1 p.2)

/-- A token the rendering convention can carry faithfully: non-empty, free
of whitespace, not starting with the `#` marker. -/
def cleanToken (s : String) : Prop :=
  s.toList ≠ [] ∧ (∀ c ∈ s.toList, isPySpace c = false) ∧ s.toList.head? ≠ some '#'

instance (s : String) : Decidable (cleanToken s) := by
  unfold cleanToken
  infer_instance

theorem reSplitRun_nonws_to_end : ∀ (K acc : List Char),
    (∀ c ∈ K, isPySpace c = false) → reSplitRun none acc K = [acc.reverse ++ K]
  | [], acc, _ => by simp [reSplitRun]
  | [c], acc, _ => by simp [reSplitRun]
  | c1 :: c2 :: rest, acc, h => by
    have h1 : isPySpace c1 = false := h c1 (by simp)
    rw [show reSplitRun none acc (c1 :: c2 :: rest)
        = reSplitRun none (c1 :: acc) (c2 :: rest) from by simp [reSplitRun, h1]]
    rw [reSplitRun_nonws_to_end (c2 :: rest) (c1 :: acc)
        (fun c hc => h c (List.mem_cons_of_mem c1 hc))]
    simp

theorem reSplitRun_nonws_then_sep : ∀ (K acc rest : List Char),
    (∀ c ∈ K, isPySpace c = false) →
    reSplitRun none acc (K ++ ' ' :: ' ' :: rest)
      = (acc.reverse ++ K) :: reSplitRun (some (' ', ' ')) [] rest
  | [], acc, rest, _ => by simp [reSplitRun, isPySpace]
  | [c], acc, rest, h => by
    have h1 : isPySpace c = false := h c (by simp)
    simp only [List.cons_append, List.nil_append]
    rw [show reSplitRun none acc (c :: ' ' :: ' ' :: rest)
        = reSplitRun none (c :: acc) (' ' :: ' ' :: rest) from by simp [reSplitRun, h1]]
    rw [show reSplitRun none (c :: acc) (' ' :: ' ' :: rest)
        = (c :: acc).reverse :: reSplitRun (some (' ', ' ')) [] rest from by
          simp [reSplitRun, isPySpace]]
    simp
  | c1 :: c2 :: rest2, acc, rest, h => by
    have h1 : isPySpace c1 = false := h c1 (by simp)
    simp only [List.cons_append]
    rw [show reSplitRun none acc (c1 :: c2 :: (rest2 ++ ' ' :: ' ' :: rest))
        = reSplitRun none (c1 :: acc) (c2 :: (rest2 ++ ' ' :: ' ' :: rest)) from by
          simp [reSplitRun, h1]]
    rw [show (c2 :: (rest2 ++ ' ' :: ' ' :: rest)) = (c2 :: rest2) ++ ' ' :: ' ' :: rest from rfl]
    rw [reSplitRun_nonws_then_sep (c2 :: rest2) (c1 :: acc) rest
        (fun c hc => h c (List.mem_cons_of_mem c1 hc))]
    simp

theorem reSplitRun_sep_exit (p1 p2 c : Char) (acc l : List Char) (h : isPySpace c = false) :
    reSplitRun (some (p1, p2)) acc (c :: l) = [p1, p2] :: reSplitRun none [c] l := by
  cases l with
  | nil => simp [reSplitRun]
  | cons c2 r => simp [reSplitRun, h]

theorem reSplitRun_sep_pair (p1 p2 : Char) (acc l : List Char) :
    reSplitRun (some (p1, p2)) acc (' ' :: ' ' :: l) = reSplitRun (some (' ', ' ')) [] l := by
  simp [reSplitRun, isPySpace]

theorem reSplitRun_sep_through_nonws (V : List Char) (p1 p2 : Char) (acc : List Char)
    (hne : V ≠ []) (h : ∀ c ∈ V, isPySpace c = false) :
    reSplitRun (some (p1, p2)) acc V = [p1, p2] :: [V] := by
  cases V with
  | nil => exact absurd rfl hne
  | cons c l =>
    rw [reSplitRun_sep_exit p1 p2 c acc l (h c (by simp))]
    rw [reSplitRun_nonws_to_end l [c] (fun d hd => h d (List.mem_cons_of_mem c hd))]
    simp

theorem stripHash_ne (c : Char) (l : List Char) (h : c ≠ '#') : stripHash (c :: l) = c :: l := by
  unfold stripHash
  split
  · next heq =>
    injection heq with h1 h2
    exact absurd h1 h
  · rfl

theorem wsOnly_false (l : List Char) (hne : l ≠ []) (h : ∀ c ∈ l, isPySpace c = false) :
    wsOnly l = false := by
  cases l with
  | nil => exact absurd rfl hne
  | cons c r => simp [wsOnly, h c (by simp)]

theorem removeWs_id (l : List Char) (h : ∀ c ∈ l, isPySpace c = false) :
    removeWs l = l := by
  unfold removeWs
  apply List.filter_eq_self.mpr
  intro c hc
  simp [h c hc]

/-- The pair one rendered line contributes: exactly the original pair, for
clean tokens. -/
theorem metaPair_renderLine (k v : String) (hk : cleanToken k) (hv : cleanToken v) :
    metaPair (renderLine k v).toList = some (k, v) := by
  obtain ⟨hk1, hk2, hk3⟩ := hk
  obtain ⟨hv1, hv2, hv3⟩ := hv
  obtain ⟨k0, kt, hkl⟩ := List.exists_cons_of_ne_nil hk1
  obtain ⟨v0, vt, hvl⟩ := List.exists_cons_of_ne_nil hv1
  have hk0 : k0 ≠ '#' := by
    rw [hkl] at hk3
    simp only [List.head?_cons, ne_eq, Option.some.injEq] at hk3
    exact hk3
  have hv0 : v0 ≠ '#' := by
    rw [hvl] at hv3
    simp only [List.head?_cons, ne_eq, Option.some.injEq] at hv3
    exact hv3
  have hsplit : reSplitDoubleWs (renderLine k v).toList
      = [['#'], [' ', ' '], k.toList, [' ', ' '], v.toList] := by
    show reSplitRun none [] ('#' :: ' ' :: ' ' :: (k.toList ++ [' ', ' ', ' ', ' '] ++ v.toList))
        = _
    rw [show reSplitRun none [] ('#' :: ' ' :: ' ' :: (k.toList ++ [' ', ' ', ' ', ' '] ++ v.toList))
        = reSplitRun none ['#'] (' ' :: ' ' :: (k.toList ++ [' ', ' ', ' ', ' '] ++ v.toList))
        from by simp [reSplitRun, isPySpace]]
    rw [show reSplitRun none ['#'] (' ' :: ' ' :: (k.toList ++ [' ', ' ', ' ', ' '] ++ v.toList))
        = ['#'] :: reSplitRun (some (' ', ' ')) [] (k.toList ++ [' ', ' ', ' ', ' '] ++ v.toList)
        from by simp [reSplitRun, isPySpace]]
    rw [hkl]
    rw [show (k0 :: kt) ++ [' ', ' ', ' ', ' '] ++ v.toList
        = k0 :: (kt ++ ' ' :: ' ' :: (' ' :: ' ' :: v.toList)) from by simp]
    rw [reSplitRun_sep_exit ' ' ' ' k0 [] _ (hk2 k0 (by rw [hkl]; simp))]
    rw [reSplitRun_nonws_then_sep kt [k0] (' ' :: ' ' :: v.toList)
        (fun c hc => hk2 c (by rw [hkl]; exact List.mem_cons_of_mem k0 hc))]
    rw [reSplitRun_sep_pair]
    rw [reSplitRun_sep_through_nonws v.toList ' ' ' ' [] hv1 hv2]
    simp [hkl]
  have hfk2 : (!wsOnly k.toList) = true := by rw [wsOnly_false k.toList hk1 hk2]; rfl
  have hfv2 : (!wsOnly v.toList) = true := by rw [wsOnly_false v.toList hv1 hv2]; rfl
  have t1 : List.filter (fun t => !wsOnly t) [['#'], [' ', ' '], k.toList, [' ', ' '], v.toList]
      = [['#'], k.toList, v.toList] := by
    simp only [List.filter_cons, List.filter_nil, hfk2, hfv2]
    rw [show (!wsOnly ['#']) = true from rfl, show (!wsOnly [' ', ' ']) = false from rfl]
    simp
  have t2 : List.map stripHash [['#'], k.toList, v.toList] = [[], k.toList, v.toList] := by
    simp only [List.map_cons, List.map_nil]
    rw [hkl, hvl, stripHash_ne k0 kt hk0, stripHash_ne v0 vt hv0]
    rfl
  simp only [metaPair, hsplit, t1, t2, List.length_cons, List.length_nil]
  norm_num
  exact ⟨by rw [show removeWs k.data = k.data from removeWs_id k.toList hk2],
         by rw [show removeWs v.data = v.data from removeWs_id v.toList hv2]⟩

theorem updateAssoc_append {α : Type} (d : List (String × α)) (k : String) (v : α)
    (h : d.any (fun q => q.1 = k) = false) : updateAssoc d k v = d ++ [(k, v)] := by
  unfold updateAssoc
  rw [h]
  simp

theorem filter_meta_data_render_aux :
    ∀ (m acc : List (String × String)),
    (∀ p ∈ m, cleanToken p.1 ∧ cleanToken p.2) →
    (m.map Prod.fst).Nodup →
    (∀ p ∈ m, acc.any (fun q => q.1 = p.1) = false) →
    List.foldl (fun d line =>
      match metaPair line.toList with
      | some (k, v) => updateAssoc d k v
      | none => d) acc (renderMapping m) = acc ++ m
  | [], acc, _, _, _ => by simp [renderMapping]
  | (k, v) :: m, acc, hclean, hnd, hdisj => by
    have hkv := hclean (k, v) (List.mem_cons_self _ _)
    have hstep : (match metaPair (renderLine k v).toList with
        | some (k2, v2) => updateAssoc acc k2 v2
        | none => acc) = acc ++ [(k, v)] := by
      rw [metaPair_renderLine k v hkv.1 hkv.2]
      exact updateAssoc_append acc k v (hdisj (k, v) (List.mem_cons_self _ _))
    have hnd2 : (m.map Prod.fst).Nodup := by
      simp only [List.map_cons, List.nodup_cons] at hnd
      exact hnd.2
    have hknotin : k ∉ m.map Prod.fst := by
      simp only [List.map_cons, List.nodup_cons] at hnd
      exact hnd.1
    have hdisj2 : ∀ p ∈ m, (acc ++ [(k, v)]).any (fun q => q.1 = p.1) = false := by
      intro p hp
      rw [List.any_append]
      have h1 : acc.any (fun q => q.1 = p.1) = false :=
        hdisj p (List.mem_cons_of_mem _ hp)
      have hne : k ≠ p.1 := by
        intro hcontra
        exact hknotin (hcontra ▸ List.mem_map_of_mem Prod.fst hp)
      have h2 : List.any [(k, v)] (fun q => q.1 = p.1) = false := by
        simp [hne]
      rw [h1, h2]
      rfl
    have ih := filter_meta_data_render_aux m (acc ++ [(k, v)])
      (fun p hp => hclean p (List.mem_cons_of_mem _ hp)) hnd2 hdisj2
    calc List.foldl _ acc (renderMapping ((k, v) :: m))
        = List.foldl (fun d line =>
            match metaPair line.toList with
            | some (k2, v2) => updateAssoc d k2 v2
            | none => d) (acc ++ [(k, v)]) (renderMapping m) := by
          simp only [renderMapping, List.map_cons, List.foldl_cons, hstep]
      _ = (acc ++ [(k, v)]) ++ m := ih
      _ = acc ++ (k, v) :: m := by simp

/-- C7 counterexample: the round trip fails as soon as a key carries an
internal space — `filter_meta_data` erases all whitespace inside each token
(loading.py line 45), so the mapping with key `a b` comes back keyed
`ab`. -/
theorem C7_roundtrip_counterexample :
    filter_meta_data (renderMapping [("a b", "c")]) ≠ [("a b", "c")] := by decide

/-- C7 as amended: for every mapping with pairwise distinct keys whose keys
and values are non-empty, contain no whitespace and do not start with `#`,
rendering each pair in the `#  key    value` convention and applying
`filter_meta_data` recovers the mapping exactly. -/
theorem C7_roundtrip_clean_mapping (m : List (String × String))
    (hclean : ∀ p ∈ m, cleanToken p.1 ∧ cleanToken p.2)
    (hnd : (m.map Prod.fst).Nodup) :
    filter_meta_data (renderMapping m) = m := by
  have h := filter_meta_data_render_aux m [] hclean hnd (fun p _ => rfl)
  simpa [filter_meta_data] using h

/-- Witness for the amended C7 at a concrete two-entry mapping. -/
theorem C7_roundtrip_witness :
    filter_meta_data (renderMapping
        [("AnalyzerLens:", "MM_PEEM"), ("ScanVariable:", "KineticEnergy")])
      = [("AnalyzerLens:", "MM_PEEM"), ("ScanVariable:", "KineticEnergy")] :=
  C7_roundtrip_clean_mapping _ (by decide) (by decide)
